import Mathlib

/-!
Verification of the JSONAPISerializer from
sqlalchemy_jsonapi/declarative/serializer.py, as a shallow embedding.

Python values are modelled by the inductive PyValue; datetime objects by
the DateTime structure with an isoformat rendering; entities (SQLAlchemy
model instances) by the Entity structure carrying their method-resolution
order (for isinstance), truth value, table name, attribute dictionary and
declared relationships. Exceptions are modelled with Except.
-/

namespace SqlalchemyJsonapi

/-- A Python datetime.datetime value: calendar fields plus an optional
timezone offset in minutes. -/
structure DateTime where
  year : Nat
  month : Nat
  day : Nat
  hour : Nat
  minute : Nat
  second : Nat
  microsecond : Nat
  tzoffsetMinutes : Option Int
deriving DecidableEq, Repr

/-- Zero-pad the decimal form of a natural number to the given width. -/
def padNum (width : Nat) (n : Nat) : String :=
  let s := toString n
  String.mk (List.replicate (width - s.length) '0') ++ s

/-- Python datetime.isoformat(sep): YYYY-MM-DD, the separator, HH:MM:SS,
the microseconds when nonzero, and the utc offset as +HH:MM or -HH:MM
when the value is timezone-aware. -/
def DateTime.isoformatSep (d : DateTime) (sep : Char) : String :=
  padNum 4 d.year ++ "-" ++ padNum 2 d.month ++ "-" ++ padNum 2 d.day ++
  String.mk [sep] ++
  padNum 2 d.hour ++ ":" ++ padNum 2 d.minute ++ ":" ++ padNum 2 d.second ++
  (if d.microsecond = 0 then "" else "." ++ padNum 6 d.microsecond) ++
  (match d.tzoffsetMinutes with
   | Option.none => ""
   | Option.some off =>
     (if off < 0 then "-" else "+") ++
     padNum 2 (off.natAbs / 60) ++ ":" ++ padNum 2 (off.natAbs % 60))

/-- Python datetime.isoformat() with the default separator. -/
def DateTime.isoformat (d : DateTime) : String := d.isoformatSep 'T'

/-- The Python values that can appear as entity attribute values. -/
inductive PyValue where
  | none : PyValue
  | bool : Bool → PyValue
  | int : Int → PyValue
  | str : String → PyValue
  | datetime : DateTime → PyValue
deriving DecidableEq, Repr

/-- Python str() on a value; datetime renders with a space separator. -/
def pyStr : PyValue → String
  | PyValue.none => "None"
  | PyValue.bool true => "True"
  | PyValue.bool false => "False"
  | PyValue.int n => toString n
  | PyValue.str s => s
  | PyValue.datetime d => d.isoformatSep ' '

/-- One SQLAlchemy relationship as seen through mapper.relationships:
its key and the names of its local (foreign-key) columns. -/
structure Association where
  name : String
  local_columns : List String
deriving DecidableEq, Repr

/-- A model instance: its class and ancestor class names (mro, for the
isinstance test, the own class of the instance first), its Python truth
value,
its dunder tablename, its attribute dictionary (getattr) and the
relationships declared on its mapper. -/
structure Entity where
  mro : List String
  truthy : Bool
  tablename : String
  attrs : List (String × PyValue)
  relationships : List Association
deriving DecidableEq, Repr

/-- Python getattr on an entity, Option.none when the attribute is
absent (AttributeError). -/
def getattr (e : Entity) (name : String) : Option PyValue :=
  (e.attrs.find? (fun p => p.1 = name)).map (fun p => p.2)

/-- Python isinstance: the class is the class of the instance or one of
its ancestors. -/
def isinstance (e : Entity) (cls : String) : Bool :=
  e.mro.contains cls

/-- The serializer configuration: the class-level members of a
JSONAPISerializer subclass. -/
structure Serializer where
  model : Option String
  primary_key : String := "id"
  fields : List String := []
  dasherize : Bool := true
deriving DecidableEq, Repr

/-- The exceptions the constructor can raise. -/
inductive InitError where
  | typeError : InitError
  | valueError : InitError
deriving DecidableEq, Repr

/-- JSONAPISerializer.init: TypeError when model is None, ValueError
when the primary key is not among the fields. -/
def Serializer.init (s : Serializer) : Except InitError Unit :=
  if s.model = Option.none then Except.error InitError.typeError
  else if s.primary_key ∈ s.fields then Except.ok ()
  else Except.error InitError.valueError

/-- The exceptions the rendering methods can raise. -/
inductive RenderError where
  | typeError : RenderError
  | attributeError : RenderError
deriving DecidableEq, Repr

/-- The name transform applied to exposed names: dasherize(underscore(x))
when the dasherize flag is set, the identity otherwise. The two
inflection helpers follow below. -/
def isAsciiUpper (c : Char) : Bool := 'A' ≤ c && c ≤ 'Z'

/-- ASCII lowercase letter test. -/
def isAsciiLower (c : Char) : Bool := 'a' ≤ c && c ≤ 'z'

/-- ASCII lowercase letter or digit test, the class [a-z\d]. -/
def isAsciiLowerOrDigit (c : Char) : Bool :=
  ('a' ≤ c && c ≤ 'z') || ('0' ≤ c && c ≤ '9')

/-- First substitution of inflection.underscore: insert an underscore
between a run of capitals and a capital that starts a lowercase word,
the pattern ([A-Z]+)([A-Z][a-z]) replaced by the groups joined with an
underscore. -/
def sub1 : List Char → List Char
  | a :: b :: c :: rest =>
    if isAsciiUpper a && isAsciiUpper b && isAsciiLower c then
      a :: '_' :: sub1 (b :: c :: rest)
    else
      a :: sub1 (b :: c :: rest)
  | l => l

/-- Second substitution of inflection.underscore: insert an underscore
between a lowercase letter or digit and a capital, the pattern
([a-z\d])([A-Z]) replaced by the groups joined with an underscore. -/
def sub2 : List Char → List Char
  | a :: b :: rest =>
    if isAsciiLowerOrDigit a && isAsciiUpper b then
      a :: '_' :: sub2 (b :: rest)
    else
      a :: sub2 (b :: rest)
  | l => l

/-- inflection.underscore: the two substitutions, hyphens turned into
underscores, then lowercased. -/
def underscore (w : String) : String :=
  String.mk (((sub2 (sub1 w.toList)).map
    (fun c => if c = '-' then '_' else c)).map Char.toLower)

/-- inflection.dasherize: underscores turned into hyphens. -/
def dasherize (w : String) : String :=
  String.mk (w.toList.map (fun c => if c = '_' then '-' else c))

/-- The mapped_fields / mapped_relationships transform of the source. -/
def mappedName (s : Serializer) (x : String) : String :=
  if s.dasherize then dasherize (underscore x) else x

/-- The attrs_to_ignore set of render_attributes: for every declared
relationship, its local column names together with its key. -/
def attrsToIgnore (e : Entity) : List String :=
  e.relationships.foldr (fun r acc => r.local_columns ++ [r.name] ++ acc) []

/-- The value coercion of render_attributes: datetime values render as
their isoformat string, everything else passes through unchanged. -/
def coerceValue : PyValue → PyValue
  | PyValue.datetime d => PyValue.str d.isoformat
  | v => v

/-- The loop of render_attributes over the declared fields: skip the
primary key, raise AttributeError on a field in the ignore set, raise
AttributeError on a missing attribute, otherwise store the coerced value
under the mapped name, in field order. -/
def renderAttrsList (s : Serializer) (e : Entity) (ignore : List String) :
    List String → Except RenderError (List (String × PyValue))
  | [] => Except.ok []
  | f :: fs =>
    if f = s.primary_key then renderAttrsList s e ignore fs
    else if f ∈ ignore then Except.error RenderError.attributeError
    else
      match getattr e f with
      | Option.none => Except.error RenderError.attributeError
      | Option.some v =>
        match renderAttrsList s e ignore fs with
        | Except.error err => Except.error err
        | Except.ok rest => Except.ok ((mappedName s f, coerceValue v) :: rest)

/-- JSONAPISerializer.render_attributes. -/
def renderAttributes (s : Serializer) (e : Entity) :
    Except RenderError (List (String × PyValue)) :=
  renderAttrsList s e (attrsToIgnore e) s.fields

/-- The links object of one rendered relationship. -/
structure RelLinks where
  self : String
  related : String
deriving DecidableEq, Repr

/-- JSONAPISerializer.render_relationships: look up the primary key
(AttributeError when absent), then emit, for every declared
relationship in declaration order, the self and related links under the
mapped relationship name. -/
def renderRelationships (s : Serializer) (e : Entity) :
    Except RenderError (List (String × RelLinks)) :=
  match getattr e s.primary_key with
  | Option.none => Except.error RenderError.attributeError
  | Option.some pk =>
    Except.ok (e.relationships.map (fun a =>
      (mappedName s a.name,
       { self := "/" ++ e.tablename ++ "/" ++ pyStr pk ++
           "/relationships/" ++ mappedName s a.name,
         related := "/" ++ e.tablename ++ "/" ++ pyStr pk ++ "/" ++
           mappedName s a.name })))

/-- A rendered resource object: the four top-level members. -/
structure Resource where
  id : String
  type : String
  attributes : List (String × PyValue)
  relationships : List (String × RelLinks)
deriving DecidableEq, Repr

/-- JSONAPISerializer.render_resource: None for a falsy resource,
TypeError unless isinstance of the configured model, then id (string of
the primary key, AttributeError when absent), type (tablename),
attributes and relationships. -/
def renderResource (s : Serializer) (r : Option Entity) :
    Except RenderError (Option Resource) :=
  match r with
  | Option.none => Except.ok Option.none
  | Option.some e =>
    if e.truthy = false then Except.ok Option.none
    else
      match s.model with
      | Option.none => Except.error RenderError.typeError
      | Option.some cls =>
        if isinstance e cls then
          match getattr e s.primary_key with
          | Option.none => Except.error RenderError.attributeError
          | Option.some pk =>
            match renderAttributes s e with
            | Except.error err => Except.error err
            | Except.ok attrs =>
              match renderRelationships s e with
              | Except.error err => Except.error err
              | Except.ok rels =>
                Except.ok (Option.some
                  { id := pyStr pk, type := e.tablename,
                    attributes := attrs, relationships := rels })
        else Except.error RenderError.typeError

/-- The data member of the envelope: a single (possibly null) resource,
or a list of (possibly null) resources. -/
inductive DataValue where
  | single : Option Resource → DataValue
  | list : List (Option Resource) → DataValue
deriving DecidableEq, Repr

/-- The serialized envelope: meta.sqlalchemy_jsonapi_version,
jsonapi.version, and data. -/
structure Document where
  meta_version : String
  jsonapi_version : String
  data : DataValue
deriving DecidableEq, Repr

/-- The serialize input: the source distinguishes a collection from a
singleton by the presence of a count member (a SQLAlchemy query); a
collection member may itself be None. -/
inductive SerializeInput where
  | singleton : Option Entity → SerializeInput
  | collection : List (Option Entity) → SerializeInput
deriving DecidableEq, Repr

/-- Render every member of a collection in encounter order. -/
def renderList (s : Serializer) :
    List (Option Entity) → Except RenderError (List (Option Resource))
  | [] => Except.ok []
  | x :: xs =>
    match renderResource s x with
    | Except.error err => Except.error err
    | Except.ok r =>
      match renderList s xs with
      | Except.error err => Except.error err
      | Except.ok rs => Except.ok (r :: rs)

/-- JSONAPISerializer.serialize: the fixed meta and jsonapi members,
with data a list of rendered members for a collection input and a
single rendered resource otherwise. -/
def serialize (s : Serializer) : SerializeInput → Except RenderError Document
  | SerializeInput.collection es =>
    match renderList s es with
    | Except.error err => Except.error err
    | Except.ok rs =>
      Except.ok { meta_version := "4.0.9", jsonapi_version := "1.0",
                  data := DataValue.list rs }
  | SerializeInput.singleton r =>
    match renderResource s r with
    | Except.error err => Except.error err
    | Except.ok res =>
      Except.ok { meta_version := "4.0.9", jsonapi_version := "1.0",
                  data := DataValue.single res }

/-! Concrete data used to instantiate the theorems below: an article
serializer and entities exercising each code path. -/

/-- A serializer configured for the Article class. -/
def artCfg : Serializer :=
  { model := Option.some "Article", fields := ["id", "fullName"] }

/-- An article entity with primary key 5 and one author association. -/
def artEnt : Entity :=
  { mro := ["Article"], truthy := true, tablename := "articles",
    attrs := [("id", PyValue.int 5), ("fullName", PyValue.str "Dan")],
    relationships := [{ name := "author", local_columns := ["author_id"] }] }

/-- The resource rendered from artEnt under artCfg. -/
def artResource : Resource :=
  { id := "5", type := "articles",
    attributes := [("full-name", PyValue.str "Dan")],
    relationships := [("author",
      { self := "/articles/5/relationships/author",
        related := "/articles/5/author" })] }

/-- An entity whose class is a strict subclass of Article. -/
def subEnt : Entity :=
  { mro := ["FeaturedArticle", "Article"], truthy := true,
    tablename := "featured_articles",
    attrs := [("id", PyValue.int 1), ("fullName", PyValue.str "Eve")],
    relationships := [] }

/-- An entity of an unrelated class. -/
def wrongEnt : Entity :=
  { mro := ["Comment"], truthy := true, tablename := "comments",
    attrs := [("id", PyValue.int 2)], relationships := [] }

/-- A falsy entity of an unrelated class. -/
def falsyEnt : Entity :=
  { mro := ["Comment"], truthy := false, tablename := "comments",
    attrs := [], relationships := [] }

/-- A serializer whose fields include the author_id foreign-key column
of the author association of artEnt. -/
def badFieldsCfg : Serializer :=
  { model := Option.some "Article",
    fields := ["id", "author_id", "fullName"] }

/-! Helper lemmas about the attribute loop, the relationship renderer
and the collection renderer. -/

/-- Success of the attribute loop characterizes every produced entry:
it comes from a declared field that is not the primary key, is not in
the ignore set, resolves on the entity, and is stored as the mapped
name with the coerced value. -/
theorem renderAttrsList_ok_mem (s : Serializer) (e : Entity)
    (ignore : List String) :
    ∀ (fs : List String) (attrs : List (String × PyValue)),
      renderAttrsList s e ignore fs = Except.ok attrs →
      ∀ p, p ∈ attrs → ∃ f v, f ∈ fs ∧ f ≠ s.primary_key ∧ f ∉ ignore ∧
        getattr e f = Option.some v ∧ p = (mappedName s f, coerceValue v) := by
  intro fs
  induction fs with
  | nil =>
    intro attrs h p hp
    simp only [renderAttrsList] at h
    cases h
    simp at hp
  | cons f fs ih =>
    intro attrs h p hp
    simp only [renderAttrsList] at h
    by_cases hpk : f = s.primary_key
    · rw [if_pos hpk] at h
      obtain ⟨g, v, hg, hgpk, hgig, hget, hpv⟩ := ih attrs h p hp
      exact ⟨g, v, List.mem_cons_of_mem _ hg, hgpk, hgig, hget, hpv⟩
    · rw [if_neg hpk] at h
      by_cases hig : f ∈ ignore
      · rw [if_pos hig] at h
        cases h
      · rw [if_neg hig] at h
        cases hget : getattr e f with
        | none => rw [hget] at h; cases h
        | some v =>
          rw [hget] at h
          cases hrest : renderAttrsList s e ignore fs with
          | error err => rw [hrest] at h; cases h
          | ok rest =>
            rw [hrest] at h
            cases h
            rcases List.mem_cons.mp hp with hp1 | hp2
            · exact ⟨f, v, List.mem_cons_self f fs, hpk, hig, hget, hp1⟩
            · obtain ⟨g, w, hg, hgpk, hgig, hgget, hpv⟩ :=
                ih rest hrest p hp2
              exact ⟨g, w, List.mem_cons_of_mem _ hg, hgpk, hgig, hgget, hpv⟩

/-- If some declared field other than the primary key lies in the
ignore set, the attribute loop raises AttributeError. -/
theorem renderAttrsList_excluded (s : Serializer) (e : Entity)
    (ignore : List String) :
    ∀ (fs : List String) (f : String), f ∈ fs → f ≠ s.primary_key →
      f ∈ ignore →
      renderAttrsList s e ignore fs = Except.error RenderError.attributeError := by
  intro fs
  induction fs with
  | nil => intro f hf; simp at hf
  | cons g fs ih =>
    intro f hf hnpk hig
    simp only [renderAttrsList]
    by_cases hgpk : g = s.primary_key
    · rw [if_pos hgpk]
      rcases List.mem_cons.mp hf with h1 | h2
      · exact absurd (h1 ▸ hgpk) hnpk
      · exact ih f h2 hnpk hig
    · rw [if_neg hgpk]
      by_cases hgig : g ∈ ignore
      · rw [if_pos hgig]
      · rw [if_neg hgig]
        have hfg : f ≠ g := fun hh => hgig (hh ▸ hig)
        have hftail : f ∈ fs := by
          rcases List.mem_cons.mp hf with h1 | h2
          · exact absurd h1 hfg
          · exact h2
        cases hget : getattr e g with
        | none => rfl
        | some v => rw [ih f hftail hnpk hig]

/-- The attribute loop never raises TypeError. -/
theorem renderAttrsList_ne_typeError (s : Serializer) (e : Entity)
    (ignore : List String) :
    ∀ fs, renderAttrsList s e ignore fs ≠
      Except.error RenderError.typeError := by
  intro fs
  induction fs with
  | nil => intro h; cases h
  | cons g fs ih =>
    intro h
    simp only [renderAttrsList] at h
    by_cases hgpk : g = s.primary_key
    · rw [if_pos hgpk] at h; exact ih h
    · rw [if_neg hgpk] at h
      by_cases hgig : g ∈ ignore
      · rw [if_pos hgig] at h; cases h
      · rw [if_neg hgig] at h
        cases hget : getattr e g with
        | none => rw [hget] at h; cases h
        | some v =>
          rw [hget] at h
          cases hrest : renderAttrsList s e ignore fs with
          | error err => rw [hrest] at h; cases h; exact ih hrest
          | ok rest => rw [hrest] at h; cases h

/-- The relationship renderer never raises TypeError. -/
theorem renderRelationships_ne_typeError (s : Serializer) (e : Entity) :
    renderRelationships s e ≠ Except.error RenderError.typeError := by
  intro h
  unfold renderRelationships at h
  cases hget : getattr e s.primary_key with
  | none => rw [hget] at h; cases h
  | some pk => rw [hget] at h; cases h

/-- Rendering a collection whose members all render successfully yields
the member renders, in encounter order. -/
theorem renderList_map (s : Serializer) :
    ∀ (es : List (Option Entity)) (f : Option Entity → Option Resource),
      (∀ x, x ∈ es → renderResource s x = Except.ok (f x)) →
      renderList s es = Except.ok (es.map f) := by
  intro es
  induction es with
  | nil => intro f _; rfl
  | cons x xs ih =>
    intro f hall
    simp only [renderList, List.map]
    rw [hall x (List.mem_cons_self x xs), ih f
      (fun y hy => hall y (List.mem_cons_of_mem x hy))]

/-- C1: for every configuration and truthy entity that renders to a
resource object, with the primary-key attribute present with value pk,
the id member is the string conversion of pk and the type member is the
declared type tag (tablename) of the entity. -/
theorem C1_render_id_and_type (s : Serializer) (e : Entity) (r : Resource)
    (pk : PyValue)
    (hpk : getattr e s.primary_key = Option.some pk)
    (h : renderResource s (Option.some e) = Except.ok (Option.some r)) :
    r.id = pyStr pk ∧ r.type = e.tablename := by
  simp only [renderResource] at h
  split at h
  · cases h
  · split at h
    · cases h
    · rename_i cls hm
      split at h
      · split at h
        · cases h
        · rename_i pk' hget
          split at h
          · cases h
          · rename_i attrs hattrs
            split at h
            · cases h
            · rename_i rels hrels
              cases h
              have hpk2 : pk' = pk := Option.some.inj (hget.symm.trans hpk)
              subst hpk2
              exact ⟨rfl, rfl⟩
      · cases h

/-- C1 witness: a concrete rendering with primary key 5 and type tag
articles. -/
theorem C1_render_id_and_type_witness :
    artResource.id = pyStr (PyValue.int 5) ∧
    artResource.type = artEnt.tablename :=
  C1_render_id_and_type artCfg artEnt artResource (PyValue.int 5) rfl rfl

/-- C2: construction raises exactly when the model is unset or the
primary key is missing from the fields; with a set model and the
primary key among the fields it succeeds. -/
theorem C2_init_fails_iff (s : Serializer) :
    (∃ err, s.init = Except.error err) ↔
      (s.model = Option.none ∨ s.primary_key ∉ s.fields) := by
  unfold Serializer.init
  by_cases hm : s.model = Option.none
  · simp [hm]
  · rw [if_neg hm]
    by_cases hf : s.primary_key ∈ s.fields
    · simp [hf, hm]
    · simp [hf, hm]

/-- The resource rendered from subEnt under artCfg. -/
def subResource : Resource :=
  { id := "1", type := "featured_articles",
    attributes := [("full-name", PyValue.str "Eve")],
    relationships := [] }

/-- C3 counterexample: a truthy instance of a strict subclass of the
configured model class is accepted by the isinstance test, so
renderResource renders it instead of raising TypeError, contradicting
the claimed strict type check. -/
theorem C3_strict_check_counterexample :
    subEnt.mro.head? ≠ Option.some "Article" ∧
    isinstance subEnt "Article" = true ∧
    renderResource artCfg (Option.some subEnt) =
      Except.ok (Option.some subResource) ∧
    renderResource artCfg (Option.some subEnt) ≠
      Except.error RenderError.typeError := by
  refine ⟨by decide, by decide, by rfl, ?_⟩
  intro hx
  have hok : renderResource artCfg (Option.some subEnt) =
      Except.ok (Option.some subResource) := by rfl
  rw [hok] at hx
  cases hx

/-- C3 amended: for a truthy entity and a configured model class,
renderResource raises TypeError exactly when the entity is not an
isinstance of that class; instances of strict subclasses pass the
check and are accepted. -/
theorem C3_isinstance_check (s : Serializer) (e : Entity) (cls : String)
    (htr : e.truthy = true) (hm : s.model = Option.some cls) :
    (renderResource s (Option.some e) = Except.error RenderError.typeError ↔
      isinstance e cls = false) := by
  simp only [renderResource]
  simp only [hm]
  have htr' : ¬ (e.truthy = false) := by simp [htr]
  rw [if_neg htr']
  by_cases hin : isinstance e cls = true
  · rw [if_pos hin]
    constructor
    · intro h
      exfalso
      split at h
      · cases h
      · split at h
        · rename_i err hattrs
          cases h
          exact renderAttrsList_ne_typeError s e (attrsToIgnore e)
            s.fields hattrs
        · split at h
          · rename_i err hrels
            cases h
            exact renderRelationships_ne_typeError s e hrels
          · cases h
    · intro h
      rw [hin] at h
      cases h
  · rw [if_neg hin]
    simp only [Bool.not_eq_true] at hin
    simp [hin]

/-- C3 witness: an entity of an unrelated class makes renderResource
raise TypeError. -/
theorem C3_isinstance_check_witness :
    renderResource artCfg (Option.some wrongEnt) =
      Except.error RenderError.typeError :=
  (C3_isinstance_check artCfg wrongEnt "Article" rfl rfl).mpr rfl

/-- C4: a declared field other than the primary key that lies in the
exclusion set (local foreign-key columns and association names of all
declared associations) makes renderAttributes raise AttributeError;
and on success every produced key is the mapped name of a declared
field outside the exclusion set. -/
theorem C4_exclusion_set (s : Serializer) (e : Entity) :
    (∀ f, f ∈ s.fields → f ≠ s.primary_key → f ∈ attrsToIgnore e →
      renderAttributes s e = Except.error RenderError.attributeError) ∧
    (∀ attrs, renderAttributes s e = Except.ok attrs →
      ∀ p, p ∈ attrs → ∃ f, f ∈ s.fields ∧ f ∉ attrsToIgnore e ∧
        f ≠ s.primary_key ∧ p.1 = mappedName s f) := by
  constructor
  · intro f hf hnpk hig
    exact renderAttrsList_excluded s e (attrsToIgnore e) s.fields f hf
      hnpk hig
  · intro attrs h p hp
    obtain ⟨f, v, hf, hnpk, hnig, _, hpv⟩ :=
      renderAttrsList_ok_mem s e (attrsToIgnore e) s.fields attrs h p hp
    exact ⟨f, hf, hnig, hnpk, by rw [hpv]⟩

/-- C4 witness: declaring the author_id foreign-key column as a field
makes renderAttributes raise AttributeError on the article entity. -/
theorem C4_exclusion_set_witness :
    renderAttributes badFieldsCfg artEnt =
      Except.error RenderError.attributeError :=
  (C4_exclusion_set badFieldsCfg artEnt).1 "author_id" (by decide)
    (by decide) (by decide)

/-- C5: a collection whose members all render successfully serializes
to the member renders in encounter order; the empty collection gives
the empty data list; the null singleton gives null data. -/
theorem C5_collection_order (s : Serializer) :
    (∀ (es : List (Option Entity)) (f : Option Entity → Option Resource),
      (∀ x, x ∈ es → renderResource s x = Except.ok (f x)) →
      serialize s (SerializeInput.collection es) =
        Except.ok { meta_version := "4.0.9", jsonapi_version := "1.0",
                    data := DataValue.list (es.map f) }) ∧
    serialize s (SerializeInput.collection []) =
      Except.ok { meta_version := "4.0.9", jsonapi_version := "1.0",
                  data := DataValue.list [] } ∧
    serialize s (SerializeInput.singleton Option.none) =
      Except.ok { meta_version := "4.0.9", jsonapi_version := "1.0",
                  data := DataValue.single Option.none } := by
  refine ⟨?_, rfl, rfl⟩
  intro es f hall
  simp only [serialize]
  rw [renderList_map s es f hall]

/-- C5 witness: a one-element collection serializes to the one rendered
resource. -/
theorem C5_collection_order_witness :
    serialize artCfg (SerializeInput.collection [Option.some artEnt]) =
      Except.ok { meta_version := "4.0.9", jsonapi_version := "1.0",
                  data := DataValue.list [Option.some artResource] } :=
  (C5_collection_order artCfg).1 [Option.some artEnt]
    (fun _ => Option.some artResource)
    (fun x hx => by
      have hx2 : x = Option.some artEnt := List.mem_singleton.mp hx
      subst hx2
      rfl)

/-- C6: with the primary key present and the mapped association names
distinct, every declared association contributes exactly one entry
under its mapped name, whose self link is the type tag, the raw
primary-key value and the relationships segment, and whose related
link drops the relationships segment. -/
theorem C6_relationship_links (s : Serializer) (e : Entity)
    (pk : PyValue) (a : Association)
    (hpk : getattr e s.primary_key = Option.some pk)
    (hnd : (e.relationships.map (fun x => mappedName s x.name)).Nodup)
    (ha : a ∈ e.relationships) :
    ∃ rels, renderRelationships s e = Except.ok rels ∧
      (rels.map Prod.fst).count (mappedName s a.name) = 1 ∧
      (mappedName s a.name,
        ({ self := "/" ++ e.tablename ++ "/" ++ pyStr pk ++
             "/relationships/" ++ mappedName s a.name,
           related := "/" ++ e.tablename ++ "/" ++ pyStr pk ++ "/" ++
             mappedName s a.name } : RelLinks)) ∈ rels := by
  unfold renderRelationships
  rw [hpk]
  refine ⟨_, rfl, ?_, ?_⟩
  · rw [List.map_map]
    have hmem : mappedName s a.name ∈
        e.relationships.map (fun x => mappedName s x.name) :=
      List.mem_map_of_mem _ ha
    exact List.count_eq_one_of_mem hnd hmem
  · exact List.mem_map_of_mem _ ha

/-- C6 witness: the example of the spec, type tag articles, primary
key 5 and association author, yields the self link
/articles/5/relationships/author and the related link
/articles/5/author. -/
theorem C6_relationship_links_witness :
    ∃ rels, renderRelationships artCfg artEnt = Except.ok rels ∧
      (rels.map Prod.fst).count "author" = 1 ∧
      ("author",
        ({ self := "/articles/5/relationships/author",
           related := "/articles/5/author" } : RelLinks)) ∈ rels := by
  have h := C6_relationship_links artCfg artEnt (PyValue.int 5)
    { name := "author", local_columns := ["author_id"] }
    (by rfl) (by decide) (by decide)
  exact h

/-- C7: rendered attribute and relationship keys are the mapped names
of declared fields and associations; with the dasherize flag off the
mapped name is the native name unchanged; with it on, fullName and
full_name both map to full-name, and no underscore survives
dasherization. -/
theorem C7_name_transform (s : Serializer) (e : Entity) :
    (∀ attrs, renderAttributes s e = Except.ok attrs →
      ∀ p, p ∈ attrs → ∃ f, f ∈ s.fields ∧ p.1 = mappedName s f) ∧
    (∀ rels, renderRelationships s e = Except.ok rels →
      ∀ q, q ∈ rels → ∃ a, a ∈ e.relationships ∧
        q.1 = mappedName s a.name) ∧
    (∀ x, s.dasherize = false → mappedName s x = x) ∧
    (s.dasherize = true → mappedName s "fullName" = "full-name" ∧
      mappedName s "full_name" = "full-name") ∧
    (∀ w c, c ∈ (dasherize w).toList → c ≠ '_') := by
  refine ⟨?_, ?_, ?_, ?_, ?_⟩
  · intro attrs h p hp
    obtain ⟨f, v, hf, _, _, _, hpv⟩ :=
      renderAttrsList_ok_mem s e (attrsToIgnore e) s.fields attrs h p hp
    exact ⟨f, hf, by rw [hpv]⟩
  · intro rels h q hq
    unfold renderRelationships at h
    cases hget : getattr e s.primary_key with
    | none => rw [hget] at h; cases h
    | some pk =>
      rw [hget] at h
      cases h
      obtain ⟨a, ha, hqa⟩ := List.mem_map.mp hq
      exact ⟨a, ha, by rw [← hqa]⟩
  · intro x hd
    unfold mappedName
    rw [hd]
    simp
  · intro hd
    constructor
    · unfold mappedName
      rw [hd]
      decide
    · unfold mappedName
      rw [hd]
      decide
  · intro w c hc
    have hc2 : c ∈ w.toList.map (fun b => if b = '_' then '-' else b) := hc
    obtain ⟨b, _, hbc⟩ := List.mem_map.mp hc2
    subst hbc
    by_cases hb2 : b = '_'
    · rw [if_pos hb2]
      decide
    · rw [if_neg hb2]
      exact hb2

/-- C7 witness: the article serializer dasherizes fullName and
full_name to full-name. -/
theorem C7_name_transform_witness :
    mappedName artCfg "fullName" = "full-name" ∧
    mappedName artCfg "full_name" = "full-name" :=
  (C7_name_transform artCfg artEnt).2.2.2.1 rfl

/-- C8: every rendered attribute value is the coercion of the value
fetched from the entity; coercion sends a datetime to its ISO-8601
string and leaves every non-datetime value unchanged. -/
theorem C8_temporal_coercion (s : Serializer) (e : Entity) :
    (∀ attrs, renderAttributes s e = Except.ok attrs →
      ∀ p, p ∈ attrs → ∃ f v, f ∈ s.fields ∧
        getattr e f = Option.some v ∧ p.2 = coerceValue v) ∧
    (∀ d, coerceValue (PyValue.datetime d) =
      PyValue.str (DateTime.isoformat d)) ∧
    (∀ v, (∀ d, v ≠ PyValue.datetime d) → coerceValue v = v) := by
  refine ⟨?_, fun d => rfl, ?_⟩
  · intro attrs h p hp
    obtain ⟨f, v, hf, _, _, hget, hpv⟩ :=
      renderAttrsList_ok_mem s e (attrsToIgnore e) s.fields attrs h p hp
    exact ⟨f, v, hf, hget, by rw [hpv]⟩
  · intro v hv
    cases v with
    | none => rfl
    | bool b => rfl
    | int n => rfl
    | str s2 => rfl
    | datetime d => exact absurd rfl (hv d)

/-- A timezone-aware datetime used to instantiate C8. -/
def sampleDt : DateTime :=
  { year := 2023, month := 5, day := 7, hour := 9, minute := 30,
    second := 5, microsecond := 0, tzoffsetMinutes := Option.some 330 }

/-- C8 witness: a timezone-aware datetime coerces to its ISO-8601
string with the offset preserved. -/
theorem C8_temporal_coercion_witness :
    coerceValue (PyValue.datetime sampleDt) =
      PyValue.str "2023-05-07T09:30:05+05:30" := by
  have h := (C8_temporal_coercion artCfg artEnt).2.1 sampleDt
  rw [h]
  rfl

/-- C9: rendering the same unmutated entity twice inside one collection
yields structurally identical entries: the renderer keeps no state
across calls. -/
theorem C9_render_deterministic (s : Serializer) (x : Option Entity)
    (d : Document)
    (h : serialize s (SerializeInput.collection [x, x]) = Except.ok d) :
    ∃ r, renderResource s x = Except.ok r ∧
      d.data = DataValue.list [r, r] := by
  simp only [serialize, renderList] at h
  cases hr : renderResource s x with
  | error err => rw [hr] at h; cases h
  | ok r =>
    rw [hr] at h
    cases h
    exact ⟨r, rfl, rfl⟩

/-- C9 witness: serializing the article twice yields two identical
rendered entries. -/
theorem C9_render_deterministic_witness :
    ∃ r, renderResource artCfg (Option.some artEnt) = Except.ok r ∧
      ({ meta_version := "4.0.9", jsonapi_version := "1.0",
         data := DataValue.list [Option.some artResource,
           Option.some artResource] } : Document).data =
        DataValue.list [r, r] :=
  C9_render_deterministic artCfg (Option.some artEnt)
    { meta_version := "4.0.9", jsonapi_version := "1.0",
      data := DataValue.list [Option.some artResource,
        Option.some artResource] } (by rfl)

/-- C10: a null input renders as null; a falsy entity renders as null
before the type check regardless of its class; and in a collection a
falsy leading member contributes a null entry to the data sequence. -/
theorem C10_falsy_null (s : Serializer) :
    renderResource s Option.none = Except.ok Option.none ∧
    (∀ e, e.truthy = false → renderResource s (Option.some e) =
      Except.ok Option.none) ∧
    (∀ e es rs, e.truthy = false → renderList s es = Except.ok rs →
      serialize s (SerializeInput.collection (Option.some e :: es)) =
        Except.ok { meta_version := "4.0.9", jsonapi_version := "1.0",
                    data := DataValue.list (Option.none :: rs) }) := by
  refine ⟨rfl, ?_, ?_⟩
  · intro e htr
    simp only [renderResource]
    rw [if_pos htr]
  · intro e es rs htr hlist
    have h2 : renderResource s (Option.some e) = Except.ok Option.none := by
      simp only [renderResource]
      rw [if_pos htr]
    simp only [serialize, renderList]
    rw [h2, hlist]

/-- C10 witness: a falsy entity whose class does not match the
configured model still renders as null, not TypeError. -/
theorem C10_falsy_null_witness :
    renderResource artCfg (Option.some falsyEnt) = Except.ok Option.none ∧
    isinstance falsyEnt "Article" = false :=
  ⟨(C10_falsy_null artCfg).2.1 falsyEnt rfl, by decide⟩

end SqlalchemyJsonapi
